import Mathlib

/-
Shallow embedding of src/src/views/canvas.rs (the closure-backed adapter
widget `Canvas<T>` of the Cursive toolkit) together with the parts of the
Widget Interface (`View`) it implements.

Modelling conventions:
- The external collaborator types Printer, Event, Direction and the callback
  payload of a consumed event are opaque to the canvas code (it only forwards
  references and values), so they are type parameters `P`, `E`, `D`, `C`.
- A Rust closure stored in a `Box<Fn...>` / `Box<FnMut...>` field is modelled
  as a pure Lean function; a `&mut T` argument becomes explicit state passing
  (the function returns the new `T` next to its ordinary result).
- `draw` takes the printer by shared reference and writes into it through the
  toolkit; its effect is modelled functionally as returning the written-to
  printer, so the default closure `|_, _| ()` is `fun p _ => p`.
- A method on `&mut self` returns the updated canvas next to its result; a
  method on `&self` returns only its result.
-/

namespace Cursive

/-- Modelled from the spec: the two-component non-negative size type
(`vec.rs`, which is not under `src/`): "a two-component non-negative size
(width, height)". -/
structure Vec2 where
  x : Nat
  y : Nat
deriving DecidableEq, Repr

/-- Modelled from the spec: the constructor used at canvas.rs line 39,
`Vec2::new(1, 1)`, building a size from width and height. -/
def Vec2.new (x y : Nat) : Vec2 := ⟨x, y⟩

/-- Modelled from the spec: the event-handling outcome (`event.rs`, not under
`src/`): "a two-variant result — ignored or consumed (optionally carrying a
follow-up callback)". Callbacks stay opaque, as the type parameter `C`. -/
inductive EventResult (C : Type) where
  | Ignored : EventResult C
  | Consumed : Option C → EventResult C
deriving DecidableEq, Repr

variable {P E D C T : Type}

/-- The struct `Canvas<T>` (canvas.rs lines 11-20): an owned state value and
six independently stored behavior functions. Field types mirror the Rust
ones: `draw: Box<Fn(&Printer, &T)>`, `on_event: Box<FnMut(Event, &mut T) ->
EventResult>`, `required_size: Box<FnMut(Vec2, &mut T) -> Vec2>`, `layout:
Box<FnMut(Vec2, &mut T)>`, `take_focus: Box<FnMut(Direction, &mut T) ->
bool>`, `needs_relayout: Box<Fn(&T) -> bool>`. -/
structure Canvas (P E D C T : Type) where
  state : T
  draw : P → T → P
  on_event : E → T → EventResult C × T
  required_size : Vec2 → T → Vec2 × T
  layout : Vec2 → T → T
  take_focus : D → T → Bool × T
  needs_relayout : T → Bool

/-- Constructor `Canvas::new` (lines 34-44): installs the given state and the
six default behaviors `|_, _| ()`, `|_, _| EventResult::Ignored`,
`|_, _| Vec2::new(1, 1)`, `|_, _| ()`, `|_, _| false`, `|_| true`. -/
def Canvas.new (state : T) : Canvas P E D C T :=
  { state := state
  , draw := fun p _ => p
  , on_event := fun _ t => (EventResult.Ignored, t)
  , required_size := fun _ t => (Vec2.new 1 1, t)
  , layout := fun _ t => t
  , take_focus := fun _ t => (false, t)
  , needs_relayout := fun _ => true }

/-- Accessor `state_mut` (lines 47-49): exposes the owned state; reading
through the returned `&mut T` observes exactly the `state` field. -/
def Canvas.state_mut (c : Canvas P E D C T) : T :=
  c.state

/-- The `With::with` helper (trait `With`, not under `src/`). Modelled from
the spec: the chainable form "takes ownership of the instance, mutates it,
and returns it". -/
def withSelf {A : Type} (s : A) (f : A → A) : A :=
  f s

/-- Setter `set_draw` (lines 52-56): replaces the `draw` field. -/
def Canvas.set_draw (c : Canvas P E D C T) (f : P → T → P) : Canvas P E D C T :=
  { c with draw := f }

/-- Chainable `with_draw` (lines 61-65): `self.with(|s| s.set_draw(f))`. -/
def Canvas.with_draw (c : Canvas P E D C T) (f : P → T → P) : Canvas P E D C T :=
  withSelf c (fun s => s.set_draw f)

/-- Setter `set_on_event` (lines 68-72): replaces the `on_event` field. -/
def Canvas.set_on_event (c : Canvas P E D C T) (f : E → T → EventResult C × T) :
    Canvas P E D C T :=
  { c with on_event := f }

/-- Chainable `with_on_event` (lines 77-81): `self.with(|s| s.set_on_event(f))`. -/
def Canvas.with_on_event (c : Canvas P E D C T) (f : E → T → EventResult C × T) :
    Canvas P E D C T :=
  withSelf c (fun s => s.set_on_event f)

/-- Setter `set_required_size` (lines 84-88): replaces the `required_size`
field. -/
def Canvas.set_required_size (c : Canvas P E D C T) (f : Vec2 → T → Vec2 × T) :
    Canvas P E D C T :=
  { c with required_size := f }

/-- Chainable `with_required_size` (lines 93-97):
`self.with(|s| s.set_required_size(f))`. -/
def Canvas.with_required_size (c : Canvas P E D C T) (f : Vec2 → T → Vec2 × T) :
    Canvas P E D C T :=
  withSelf c (fun s => s.set_required_size f)

/-- Setter `set_layout` (lines 100-104): replaces the `layout` field. -/
def Canvas.set_layout (c : Canvas P E D C T) (f : Vec2 → T → T) : Canvas P E D C T :=
  { c with layout := f }

/-- Chainable `with_layout` (lines 109-113): `self.with(|s| s.set_layout(f))`. -/
def Canvas.with_layout (c : Canvas P E D C T) (f : Vec2 → T → T) : Canvas P E D C T :=
  withSelf c (fun s => s.set_layout f)

/-- Setter `set_take_focus` (lines 116-120): replaces the `take_focus` field. -/
def Canvas.set_take_focus (c : Canvas P E D C T) (f : D → T → Bool × T) :
    Canvas P E D C T :=
  { c with take_focus := f }

/-- Chainable `with_take_focus` (lines 125-129):
`self.with(|s| s.set_take_focus(f))`. -/
def Canvas.with_take_focus (c : Canvas P E D C T) (f : D → T → Bool × T) :
    Canvas P E D C T :=
  withSelf c (fun s => s.set_take_focus f)

/-- Setter `set_needs_relayout` (lines 132-136): replaces the
`needs_relayout` field. -/
def Canvas.set_needs_relayout (c : Canvas P E D C T) (f : T → Bool) :
    Canvas P E D C T :=
  { c with needs_relayout := f }

/-- Chainable `with_needs_relayout` (lines 142-146):
`self.with(|s| s.set_needs_relayout(f))`. -/
def Canvas.with_needs_relayout (c : Canvas P E D C T) (f : T → Bool) :
    Canvas P E D C T :=
  withSelf c (fun s => s.set_needs_relayout f)

/-- View method `draw` (lines 150-152): `(self.draw)(printer, &self.state)`.
Takes `&self`, so the canvas itself cannot change; the modelled effect is the
written-to printer. -/
def Canvas.View_draw (c : Canvas P E D C T) (printer : P) : P :=
  c.draw printer c.state

/-- View method `on_event` (lines 154-156):
`(self.on_event)(event, &mut self.state)`. Takes `&mut self`: the closure
result is returned and the possibly mutated state is written back. -/
def Canvas.View_on_event (c : Canvas P E D C T) (event : E) :
    EventResult C × Canvas P E D C T :=
  ((c.on_event event c.state).1, { c with state := (c.on_event event c.state).2 })

/-- View method `required_size` (lines 158-160):
`(self.required_size)(constraint, &mut self.state)`. -/
def Canvas.View_required_size (c : Canvas P E D C T) (constraint : Vec2) :
    Vec2 × Canvas P E D C T :=
  ((c.required_size constraint c.state).1,
   { c with state := (c.required_size constraint c.state).2 })

/-- View method `layout` (lines 162-164):
`(self.layout)(size, &mut self.state)`. -/
def Canvas.View_layout (c : Canvas P E D C T) (size : Vec2) : Canvas P E D C T :=
  { c with state := c.layout size c.state }

/-- View method `take_focus` (lines 166-168):
`(self.take_focus)(source, &mut self.state)`. -/
def Canvas.View_take_focus (c : Canvas P E D C T) (source : D) :
    Bool × Canvas P E D C T :=
  ((c.take_focus source c.state).1, { c with state := (c.take_focus source c.state).2 })

/-- The `impl<T> View for Canvas<T>` block (lines 149-169) defines no
`needs_relayout` method, so the trait default applies and the stored
`needs_relayout` closure is never consulted. Modelled from the spec: the
`View` trait default (`view.rs`, not under `src/`), "Defaults to always-true
when unknown". -/
def Canvas.View_needs_relayout (_c : Canvas P E D C T) : Bool :=
  true

/-- Claim C9 scenario: a canvas over an integer counter starting at 0, whose
draw renders the counter and whose event behavior increments the counter and
reports Consumed on the designated increment event (`true`) and reports
Ignored on any other event (`false`). -/
def counterCanvas : Canvas Nat Bool Unit Unit Nat :=
  ((Canvas.new 0).with_draw (fun _ t => t)).with_on_event
    (fun e t => if e then (EventResult.Consumed none, t + 1) else (EventResult.Ignored, t))

/-- Claim C1: the spec requires every Widget Interface operation, including
needs_relayout, to invoke the correspondingly named stored behavior function.
Evaluation of the code at the failing input: a canvas whose installed
needs_relayout closure constantly answers false still answers true through
the View interface (the trait default), even though the stored closure
itself answers false — the `impl View for Canvas` block has no
needs_relayout method, so the stored closure is never invoked. -/
theorem C1_needs_relayout_not_delegated :
    (((Canvas.new (P := Unit) (E := Unit) (D := Unit) (C := Unit) ()).with_needs_relayout
        (fun _ => false)).View_needs_relayout = true) ∧
    (((Canvas.new (P := Unit) (E := Unit) (D := Unit) (C := Unit) ()).with_needs_relayout
        (fun _ => false)).needs_relayout () = false) :=
  ⟨rfl, rfl⟩

/-- Claim C2: for every initial state, a freshly constructed canvas with no
behaviors overridden has: draw a no-op (printer and canvas unchanged),
on_event answering Ignored and leaving the canvas unchanged for every event,
required_size answering the minimal positive size (1, 1) for every
constraint, layout a no-op, take_focus answering false for every direction,
and needs_relayout answering true. -/
theorem C2_fresh_canvas_defaults (s : T) (p : P) (e : E) (v z : Vec2) (d : D) :
    ((Canvas.new s : Canvas P E D C T).View_draw p = p) ∧
    ((Canvas.new s : Canvas P E D C T).View_on_event e =
      (EventResult.Ignored, Canvas.new s)) ∧
    ((Canvas.new s : Canvas P E D C T).View_required_size v =
      (Vec2.new 1 1, Canvas.new s)) ∧
    ((Canvas.new s : Canvas P E D C T).View_layout z = Canvas.new s) ∧
    ((Canvas.new s : Canvas P E D C T).View_take_focus d = (false, Canvas.new s)) ∧
    ((Canvas.new s : Canvas P E D C T).View_needs_relayout = true) :=
  ⟨rfl, rfl, rfl, rfl, rfl, rfl⟩

/-- Claim C3: installing any closure through set_needs_relayout or
with_needs_relayout changes the result of no View operation: every returned
value and every resulting state is the same as on the unmodified canvas, and
the observed needs_relayout is the trait default either way. -/
theorem C3_needs_relayout_closure_inert (c : Canvas P E D C T) (g : T → Bool)
    (p : P) (e : E) (v z : Vec2) (d : D) :
    ((c.set_needs_relayout g).View_draw p = c.View_draw p) ∧
    (((c.set_needs_relayout g).View_on_event e).1 = (c.View_on_event e).1) ∧
    (((c.set_needs_relayout g).View_on_event e).2.state_mut =
      (c.View_on_event e).2.state_mut) ∧
    (((c.set_needs_relayout g).View_required_size v).1 =
      (c.View_required_size v).1) ∧
    (((c.set_needs_relayout g).View_required_size v).2.state_mut =
      (c.View_required_size v).2.state_mut) ∧
    (((c.set_needs_relayout g).View_layout z).state_mut =
      (c.View_layout z).state_mut) ∧
    (((c.set_needs_relayout g).View_take_focus d).1 = (c.View_take_focus d).1) ∧
    (((c.set_needs_relayout g).View_take_focus d).2.state_mut =
      (c.View_take_focus d).2.state_mut) ∧
    ((c.set_needs_relayout g).View_needs_relayout = c.View_needs_relayout) ∧
    ((c.with_needs_relayout g).View_draw p = c.View_draw p) ∧
    (((c.with_needs_relayout g).View_on_event e).1 = (c.View_on_event e).1) ∧
    (((c.with_needs_relayout g).View_on_event e).2.state_mut =
      (c.View_on_event e).2.state_mut) ∧
    (((c.with_needs_relayout g).View_required_size v).1 =
      (c.View_required_size v).1) ∧
    (((c.with_needs_relayout g).View_required_size v).2.state_mut =
      (c.View_required_size v).2.state_mut) ∧
    (((c.with_needs_relayout g).View_layout z).state_mut =
      (c.View_layout z).state_mut) ∧
    (((c.with_needs_relayout g).View_take_focus d).1 = (c.View_take_focus d).1) ∧
    (((c.with_needs_relayout g).View_take_focus d).2.state_mut =
      (c.View_take_focus d).2.state_mut) ∧
    ((c.with_needs_relayout g).View_needs_relayout = c.View_needs_relayout) :=
  ⟨rfl, rfl, rfl, rfl, rfl, rfl, rfl, rfl, rfl,
   rfl, rfl, rfl, rfl, rfl, rfl, rfl, rfl, rfl⟩

/-- Claim C4: every View operation of the canvas is a total function of the
canvas and the operation inputs, and its whole result is a single
application of the stored behavior to the interface-mandated inputs and the
owned state — the dispatch performs no other work, so nothing in it can
fail, and every outcome travels through the ordinary return value
(needs_relayout included, which totally returns the trait default). -/
theorem C4_dispatch_total_forwarding (c : Canvas P E D C T) (p : P) (e : E)
    (v z : Vec2) (d : D) :
    (c.View_draw p = c.draw p c.state) ∧
    (c.View_on_event e =
      ((c.on_event e c.state).1, { c with state := (c.on_event e c.state).2 })) ∧
    (c.View_required_size v =
      ((c.required_size v c.state).1,
       { c with state := (c.required_size v c.state).2 })) ∧
    (c.View_layout z = { c with state := c.layout z c.state }) ∧
    (c.View_take_focus d =
      ((c.take_focus d c.state).1, { c with state := (c.take_focus d c.state).2 })) ∧
    (c.View_needs_relayout = true) :=
  ⟨rfl, rfl, rfl, rfl, rfl, rfl⟩

/-- Claim C5: for each of the six behaviors, applying the mutating setter is
observably identical to applying the chainable variant: the two resulting
canvases are equal outright (same state and same stored behaviors, hence the
same result on every subsequent operation). -/
theorem C5_setter_chainable_equiv (c : Canvas P E D C T)
    (f : P → T → P) (g : E → T → EventResult C × T) (h : Vec2 → T → Vec2 × T)
    (i : Vec2 → T → T) (j : D → T → Bool × T) (k : T → Bool) :
    (c.with_draw f = c.set_draw f) ∧
    (c.with_on_event g = c.set_on_event g) ∧
    (c.with_required_size h = c.set_required_size h) ∧
    (c.with_layout i = c.set_layout i) ∧
    (c.with_take_focus j = c.set_take_focus j) ∧
    (c.with_needs_relayout k = c.set_needs_relayout k) :=
  ⟨rfl, rfl, rfl, rfl, rfl, rfl⟩

/-- Claim C6: for every initial state and functions f1 and f2, the chained
construction new(s).with_draw(f1).with_layout(f2) stores f1 as the draw
behavior and f2 as the layout behavior, keeps the state, and leaves the
other four behaviors at their construction-time defaults. -/
theorem C6_chain_two_behaviors (s : T) (f1 : P → T → P) (f2 : Vec2 → T → T) :
    ((((Canvas.new s : Canvas P E D C T).with_draw f1).with_layout f2).draw = f1) ∧
    ((((Canvas.new s : Canvas P E D C T).with_draw f1).with_layout f2).layout = f2) ∧
    ((((Canvas.new s : Canvas P E D C T).with_draw f1).with_layout f2).state = s) ∧
    ((((Canvas.new s : Canvas P E D C T).with_draw f1).with_layout f2).on_event =
      fun _ t => (EventResult.Ignored, t)) ∧
    ((((Canvas.new s : Canvas P E D C T).with_draw f1).with_layout f2).required_size =
      fun _ t => (Vec2.new 1 1, t)) ∧
    ((((Canvas.new s : Canvas P E D C T).with_draw f1).with_layout f2).take_focus =
      fun _ t => (false, t)) ∧
    ((((Canvas.new s : Canvas P E D C T).with_draw f1).with_layout f2).needs_relayout =
      fun _ => true) :=
  ⟨rfl, rfl, rfl, rfl, rfl, rfl, rfl⟩

/-- Claim C7: after installing a draw function f, the draw operation returns
exactly f applied to the given surface and the current state, and it does
not mutate the adapter state — draw takes the canvas immutably, so the state
observable through the state accessor afterwards equals the state before. -/
theorem C7_draw_delegation (c : Canvas P E D C T) (f : P → T → P) (p : P) :
    ((c.with_draw f).View_draw p = f p c.state_mut) ∧
    ((c.with_draw f).state_mut = c.state_mut) :=
  ⟨rfl, rfl⟩

/-- Claim C8: calling required_size twice with the identical constraint
yields the same requested size, provided there is no intervening state
mutation — formalised as the first call leaving the observable state
unchanged. -/
theorem C8_required_size_consistent (c : Canvas P E D C T) (v : Vec2)
    (h : ((c.View_required_size v).2).state_mut = c.state_mut) :
    (((c.View_required_size v).2).View_required_size v).1 =
      (c.View_required_size v).1 := by
  have h2 : (c.View_required_size v).2 = c := by
    have h3 : (c.required_size v c.state).2 = c.state := h
    show { c with state := (c.required_size v c.state).2 } = c
    rw [h3]
  rw [h2]

/-- Claim C8 witness: the consistency theorem instantiated on a concrete
canvas (fresh, integer state 0) and the concrete constraint (5, 7), whose
first required_size call indeed leaves the state unchanged. -/
theorem C8_required_size_consistent_witness :
    (((((Canvas.new (P := Unit) (E := Unit) (D := Unit) (C := Unit)
        (0 : Nat)).View_required_size (Vec2.new 5 7)).2).state_mut =
      (Canvas.new (P := Unit) (E := Unit) (D := Unit) (C := Unit)
        (0 : Nat)).state_mut)) ∧
    (((((Canvas.new (P := Unit) (E := Unit) (D := Unit) (C := Unit)
        (0 : Nat)).View_required_size (Vec2.new 5 7)).2).View_required_size
        (Vec2.new 5 7)).1 =
      ((Canvas.new (P := Unit) (E := Unit) (D := Unit) (C := Unit)
        (0 : Nat)).View_required_size (Vec2.new 5 7)).1) :=
  ⟨rfl, C8_required_size_consistent _ _ rfl⟩

/-- Claim C9: on the counter canvas, dispatching the increment event three
times leaves the state accessor reading 3; then dispatching an unrelated
event is answered Ignored and still leaves the state reading 3. -/
theorem C9_counter_end_to_end :
    ((((counterCanvas.View_on_event true).2.View_on_event
        true).2.View_on_event true).2.state_mut = 3) ∧
    (((((counterCanvas.View_on_event true).2.View_on_event
        true).2.View_on_event true).2.View_on_event false).1 =
      EventResult.Ignored) ∧
    (((((counterCanvas.View_on_event true).2.View_on_event
        true).2.View_on_event true).2.View_on_event false).2.state_mut = 3) :=
  ⟨rfl, rfl, rfl⟩

/-- Claim C10: each of the twelve behavior setters (the six set forms and
the six with forms) replaces exactly the one named behavior field: the owned
state and the five other behavior fields come out unchanged. -/
theorem C10_setters_replace_only_named_field (c : Canvas P E D C T)
    (f : P → T → P) (g : E → T → EventResult C × T) (h : Vec2 → T → Vec2 × T)
    (i : Vec2 → T → T) (j : D → T → Bool × T) (k : T → Bool) :
    ((c.set_draw f).draw = f ∧ (c.set_draw f).state = c.state ∧
      (c.set_draw f).on_event = c.on_event ∧
      (c.set_draw f).required_size = c.required_size ∧
      (c.set_draw f).layout = c.layout ∧
      (c.set_draw f).take_focus = c.take_focus ∧
      (c.set_draw f).needs_relayout = c.needs_relayout) ∧
    ((c.with_draw f).draw = f ∧ (c.with_draw f).state = c.state ∧
      (c.with_draw f).on_event = c.on_event ∧
      (c.with_draw f).required_size = c.required_size ∧
      (c.with_draw f).layout = c.layout ∧
      (c.with_draw f).take_focus = c.take_focus ∧
      (c.with_draw f).needs_relayout = c.needs_relayout) ∧
    ((c.set_on_event g).on_event = g ∧ (c.set_on_event g).state = c.state ∧
      (c.set_on_event g).draw = c.draw ∧
      (c.set_on_event g).required_size = c.required_size ∧
      (c.set_on_event g).layout = c.layout ∧
      (c.set_on_event g).take_focus = c.take_focus ∧
      (c.set_on_event g).needs_relayout = c.needs_relayout) ∧
    ((c.with_on_event g).on_event = g ∧ (c.with_on_event g).state = c.state ∧
      (c.with_on_event g).draw = c.draw ∧
      (c.with_on_event g).required_size = c.required_size ∧
      (c.with_on_event g).layout = c.layout ∧
      (c.with_on_event g).take_focus = c.take_focus ∧
      (c.with_on_event g).needs_relayout = c.needs_relayout) ∧
    ((c.set_required_size h).required_size = h ∧
      (c.set_required_size h).state = c.state ∧
      (c.set_required_size h).draw = c.draw ∧
      (c.set_required_size h).on_event = c.on_event ∧
      (c.set_required_size h).layout = c.layout ∧
      (c.set_required_size h).take_focus = c.take_focus ∧
      (c.set_required_size h).needs_relayout = c.needs_relayout) ∧
    ((c.with_required_size h).required_size = h ∧
      (c.with_required_size h).state = c.state ∧
      (c.with_required_size h).draw = c.draw ∧
      (c.with_required_size h).on_event = c.on_event ∧
      (c.with_required_size h).layout = c.layout ∧
      (c.with_required_size h).take_focus = c.take_focus ∧
      (c.with_required_size h).needs_relayout = c.needs_relayout) ∧
    ((c.set_layout i).layout = i ∧ (c.set_layout i).state = c.state ∧
      (c.set_layout i).draw = c.draw ∧
      (c.set_layout i).on_event = c.on_event ∧
      (c.set_layout i).required_size = c.required_size ∧
      (c.set_layout i).take_focus = c.take_focus ∧
      (c.set_layout i).needs_relayout = c.needs_relayout) ∧
    ((c.with_layout i).layout = i ∧ (c.with_layout i).state = c.state ∧
      (c.with_layout i).draw = c.draw ∧
      (c.with_layout i).on_event = c.on_event ∧
      (c.with_layout i).required_size = c.required_size ∧
      (c.with_layout i).take_focus = c.take_focus ∧
      (c.with_layout i).needs_relayout = c.needs_relayout) ∧
    ((c.set_take_focus j).take_focus = j ∧ (c.set_take_focus j).state = c.state ∧
      (c.set_take_focus j).draw = c.draw ∧
      (c.set_take_focus j).on_event = c.on_event ∧
      (c.set_take_focus j).required_size = c.required_size ∧
      (c.set_take_focus j).layout = c.layout ∧
      (c.set_take_focus j).needs_relayout = c.needs_relayout) ∧
    ((c.with_take_focus j).take_focus = j ∧
      (c.with_take_focus j).state = c.state ∧
      (c.with_take_focus j).draw = c.draw ∧
      (c.with_take_focus j).on_event = c.on_event ∧
      (c.with_take_focus j).required_size = c.required_size ∧
      (c.with_take_focus j).layout = c.layout ∧
      (c.with_take_focus j).needs_relayout = c.needs_relayout) ∧
    ((c.set_needs_relayout k).needs_relayout = k ∧
      (c.set_needs_relayout k).state = c.state ∧
      (c.set_needs_relayout k).draw = c.draw ∧
      (c.set_needs_relayout k).on_event = c.on_event ∧
      (c.set_needs_relayout k).required_size = c.required_size ∧
      (c.set_needs_relayout k).layout = c.layout ∧
      (c.set_needs_relayout k).take_focus = c.take_focus) ∧
    ((c.with_needs_relayout k).needs_relayout = k ∧
      (c.with_needs_relayout k).state = c.state ∧
      (c.with_needs_relayout k).draw = c.draw ∧
      (c.with_needs_relayout k).on_event = c.on_event ∧
      (c.with_needs_relayout k).required_size = c.required_size ∧
      (c.with_needs_relayout k).layout = c.layout ∧
      (c.with_needs_relayout k).take_focus = c.take_focus) :=
  ⟨⟨rfl, rfl, rfl, rfl, rfl, rfl, rfl⟩, ⟨rfl, rfl, rfl, rfl, rfl, rfl, rfl⟩,
   ⟨rfl, rfl, rfl, rfl, rfl, rfl, rfl⟩, ⟨rfl, rfl, rfl, rfl, rfl, rfl, rfl⟩,
   ⟨rfl, rfl, rfl, rfl, rfl, rfl, rfl⟩, ⟨rfl, rfl, rfl, rfl, rfl, rfl, rfl⟩,
   ⟨rfl, rfl, rfl, rfl, rfl, rfl, rfl⟩, ⟨rfl, rfl, rfl, rfl, rfl, rfl, rfl⟩,
   ⟨rfl, rfl, rfl, rfl, rfl, rfl, rfl⟩, ⟨rfl, rfl, rfl, rfl, rfl, rfl, rfl⟩,
   ⟨rfl, rfl, rfl, rfl, rfl, rfl, rfl⟩, ⟨rfl, rfl, rfl, rfl, rfl, rfl, rfl⟩⟩

end Cursive
